import Mathlib

/-!
Verification development for the egui-rad-builder repository.

The Rust sources (src/main.rs, src/app.rs, src/project.rs, src/widget/mod.rs)
are shallowly embedded below.  Machine integers are modelled as Nat/Int
(u64/usize as Nat, i32 as Int); f32 values are modelled as rationals, which
represent exactly the finite float values the editor manipulates.  Fallible
Rust operations (usize subtraction, which panics on underflow) are modelled
with Option.  String building mirrors the push_str/format! calls of the
generator; brace characters inside generated text are written with \x7b and
\x7d escapes.
-/

namespace EguiRad

/-- One `str::replace` pass with a single-character pattern, as used by
`escape` in src/widget/mod.rs: every occurrence of `c` is replaced by `r`. -/
def replaceChar (c : Char) (r : List Char) : List Char → List Char
  | [] => []
  | x :: rest => (if x = c then r else [x]) ++ replaceChar c r rest

/-- `escape` from src/widget/mod.rs lines 121-123, on character lists:
`s.replace('\\', "\\\\").replace('"', "\\\"")`. -/
def escapeL (l : List Char) : List Char :=
  replaceChar '"' ['\\', '"'] (replaceChar '\\' ['\\', '\\'] l)

/-- `escape` on strings, wrapping `escapeL`. -/
def escape (s : String) : String := String.mk (escapeL s.data)

/-- Modelled from the spec words for section 4.1: the per-character
transformation (backslash doubled, double-quote backslash-escaped, every
other character untouched). -/
def escChar (c : Char) : List Char :=
  if c = '\\' then ['\\', '\\'] else if c = '"' then ['\\', '"'] else [c]

/-- Modelled from the spec words: character-wise escaping. -/
def specEscape : List Char → List Char
  | [] => []
  | c :: rest => escChar c ++ specEscape rest

/-- Modelled from claim C10: interpret the two-character sequences
backslash-backslash and backslash-quote back to their unescaped characters,
as a reader of the generated double-quoted literal would. -/
def unescapeL : List Char → List Char
  | [] => []
  | [c] => [c]
  | c1 :: c2 :: rest =>
    if c1 = '\\' ∧ (c2 = '\\' ∨ c2 = '"') then c2 :: unescapeL rest
    else c1 :: unescapeL (c2 :: rest)

/-- Modelled from claim C10: scans for a double-quote that is not part of a
two-character escape sequence. -/
def hasUnescapedQuote : List Char → Bool
  | [] => false
  | [c] => c == '"'
  | c1 :: c2 :: rest =>
    if c1 = '\\' then hasUnescapedQuote rest
    else (c1 == '"') || hasUnescapedQuote (c2 :: rest)

lemma replaceChar_append (c : Char) (r a b : List Char) :
    replaceChar c r (a ++ b) = replaceChar c r a ++ replaceChar c r b := by
  induction a with
  | nil => rfl
  | cons x xs ih => simp [replaceChar, ih]

lemma escapeL_cons (c : Char) (rest : List Char) :
    escapeL (c :: rest) = escChar c ++ escapeL rest := by
  by_cases h1 : c = '\\'
  · subst h1
    simp [escapeL, replaceChar, replaceChar_append, escChar]
  · by_cases h2 : c = '"'
    · subst h2
      simp [escapeL, replaceChar, replaceChar_append, escChar]
    · simp [escapeL, replaceChar, replaceChar_append, escChar, h1, h2]

lemma escapeL_eq_specEscape (l : List Char) : escapeL l = specEscape l := by
  induction l with
  | nil => rfl
  | cons c rest ih => rw [escapeL_cons, specEscape, ih]

lemma unescapeL_cons_ne (c : Char) (l : List Char) (h : c ≠ '\\') :
    unescapeL (c :: l) = c :: unescapeL l := by
  cases l with
  | nil => rfl
  | cons d t => simp [unescapeL, h]

lemma unescapeL_specEscape (l : List Char) : unescapeL (specEscape l) = l := by
  induction l with
  | nil => rfl
  | cons c rest ih =>
    rw [specEscape]
    by_cases h1 : c = '\\'
    · subst h1
      simp [escChar, unescapeL, ih]
    · by_cases h2 : c = '"'
      · subst h2
        simp [escChar, h1, unescapeL, ih]
      · rw [escChar, if_neg h1, if_neg h2, List.singleton_append,
          unescapeL_cons_ne c _ h1, ih]

lemma hasUnescapedQuote_cons_ne (c : Char) (l : List Char)
    (h1 : c ≠ '\\') (h2 : c ≠ '"') :
    hasUnescapedQuote (c :: l) = hasUnescapedQuote l := by
  cases l with
  | nil => simp [hasUnescapedQuote, h2]
  | cons d t => simp [hasUnescapedQuote, h1, h2]

lemma hasUnescapedQuote_specEscape (l : List Char) :
    hasUnescapedQuote (specEscape l) = false := by
  induction l with
  | nil => rfl
  | cons c rest ih =>
    rw [specEscape]
    by_cases h1 : c = '\\'
    · subst h1
      simp [escChar, hasUnescapedQuote, ih]
    · by_cases h2 : c = '"'
      · subst h2
        simp [escChar, h1, hasUnescapedQuote, ih]
      · rw [escChar, if_neg h1, if_neg h2, List.singleton_append,
          hasUnescapedQuote_cons_ne c _ h1 h2, ih]

lemma unescapeL_escapeL (l : List Char) : unescapeL (escapeL l) = l := by
  rw [escapeL_eq_specEscape]
  exact unescapeL_specEscape l

/-- Claim C8: `escape` returns its input with every backslash doubled and
every double-quote backslash-escaped, and transforms no other character:
the result is exactly the character-wise map `escChar` (which keeps every
character other than backslash and double-quote verbatim). -/
theorem escape_transforms_only_backslash_and_quote (s : String) :
    escape s = String.mk (specEscape s.data) := by
  unfold escape
  rw [escapeL_eq_specEscape]

/-- Claim C10: interpreting the escaped text back (mapping the two-character
sequences backslash-backslash and backslash-quote to backslash and
double-quote) recovers the input exactly; hence `escapeL` is injective, and
its output never contains an unescaped double-quote. -/
theorem escape_unescape_roundtrip_injective (s t : List Char) :
    unescapeL (escapeL s) = s ∧
    hasUnescapedQuote (escapeL s) = false ∧
    (escapeL s = escapeL t → s = t) := by
  refine ⟨unescapeL_escapeL s, ?_, ?_⟩
  · rw [escapeL_eq_specEscape]
    exact hasUnescapedQuote_specEscape s
  · intro h
    have h2 := congrArg unescapeL h
    rwa [unescapeL_escapeL, unescapeL_escapeL] at h2

/-- Concrete instantiation of the C10 theorem, all hypotheses discharged. -/
theorem escape_unescape_roundtrip_injective_witness :
    unescapeL (escapeL ['a', '"', '\\']) = ['a', '"', '\\'] ∧
    hasUnescapedQuote (escapeL ['a', '"', '\\']) = false ∧
    (['a', '"', '\\'] : List Char) = ['a', '"', '\\'] :=
  ⟨(escape_unescape_roundtrip_injective ['a', '"', '\\'] ['a', '"', '\\']).1,
   (escape_unescape_roundtrip_injective ['a', '"', '\\'] ['a', '"', '\\']).2.1,
   (escape_unescape_roundtrip_injective ['a', '"', '\\'] ['a', '"', '\\']).2.2 rfl⟩

/-! ## Hierarchical data parser (tree widget), src/widget/mod.rs lines 328-416
and the identical copy in src/app.rs lines 662-735. -/

/-- The generator-internal tree node (`struct Node` in the Rust source). -/
inductive Node where
  | mk (label : String) (children : List Node)

/-- The label of a node. -/
def Node.label : Node → String
  | .mk l _ => l

/-- The children of a node. -/
def Node.children : Node → List Node
  | .mk _ c => c

/-- Rust `str::trim`: strip whitespace from both ends. -/
def rustTrim (s : String) : String :=
  String.mk (((s.data.dropWhile Char.isWhitespace).reverse.dropWhile
    Char.isWhitespace).reverse)

/-- The preprocessing pass of `parse_nodes`: pair every line with
`leading-space count / 2` and its trimmed text, then drop blank entries. -/
def treeItemsOf (lines : List String) : List (Nat × String) :=
  (lines.map (fun s =>
    ((s.data.takeWhile (fun c => c = ' ')).length / 2, rustTrim s))).filter
    (fun p => !(p.2 == ""))

/-- The recursive `build` helper of `parse_nodes`, with the peekable-iterator
loop rendered as fuel-indexed recursion (the iterator is the remaining list,
returned as the second component).  Any fuel of at least `length + 1`
suffices: each recursive call drops one unit of fuel and operates on a list
at least one element shorter than its caller's. -/
def buildNodes : Nat → Nat → List (Nat × String) → List Node × List (Nat × String)
  | 0, _, l => ([], l)
  | _ + 1, _, [] => ([], [])
  | fuel + 1, level, (ind, label) :: rest =>
    if ind < level then ([], (ind, label) :: rest)
    else if ind > level then ([], (ind, label) :: rest)
    else
      let res1 := buildNodes fuel (level + 1) rest
      let res2 := buildNodes fuel level res1.2
      (Node.mk label res1.1 :: res2.1, res2.2)

/-- `parse_nodes` from the Rust source: preprocess, then build at level 0. -/
def parse_nodes (lines : List String) : List Node :=
  let items := treeItemsOf lines
  (buildNodes (items.length + 1) 0 items).1

/-- The `one` helper of `nodes_to_literal`, fuel-indexed so that it is
structurally recursive (any fuel of at least the tree depth plus one
computes the full rendering; `sizeOf` always exceeds the depth): render one
node and recursively its children as a `GenTreeNode` constructor
expression. -/
def nodeOneF : Nat → Node → String
  | 0, _ => ""
  | fuel + 1, .mk label children =>
    let kids :=
      if children.isEmpty then "vec![]"
      else "vec![" ++ String.intercalate ", "
        (children.map (nodeOneF fuel)) ++ "]"
    "GenTreeNode \x7b label: \"" ++ escape label ++
      "\".to_string(), children: " ++ kids ++ " \x7d"

/-- `nodes_to_literal` from the Rust source, fuel-indexed like `nodeOneF`:
a forest rendered as `vec![...]`. -/
def nodes_to_literal (fuel : Nat) (nodes : List Node) : String :=
  "vec![" ++ String.intercalate ", " (nodes.map (nodeOneF fuel)) ++ "]"

/-- The item list actually fed to the parser by the Tree arm of
`emit_widget`: the two-line default when `items` is empty. -/
def treeLines (items : List String) : List String :=
  if items.isEmpty then ["Root", "  Child"] else items

/-- The nested literal embedded in the generated output for a tree widget
with the given raw item list.  The fuel `length + 1` always exceeds the
depth of the parsed forest, since every level of nesting consumes at least
one input line. -/
def treeLiteralOf (items : List String) : String :=
  nodes_to_literal (treeItemsOf (treeLines items)).length.succ
    (parse_nodes (treeLines items))

/-- Claim C1 (refuting evaluation): feeding `["A", "    B"]` — where the
second line jumps two indent levels past its predecessor — to `parse_nodes`
yields the single node `A` with no children: the over-indented line `B` is
dropped from the output forest, not absorbed one level deeper. -/
theorem tree_parser_drops_overindented_line :
    parse_nodes ["A", "    B"] = [Node.mk "A" []] := by
  rfl

/-- Claim C2 (counterexample): the item list `[" "]` is non-empty, so the
two-line fallback is not taken, yet it is empty after blank removal; the
embedded nested literal is the empty sequence `vec![]`. -/
theorem tree_blank_items_empty_literal :
    treeItemsOf [" "] = [] ∧ treeLiteralOf [" "] = "vec![]" := by
  constructor
  · rfl
  · rfl

/-- Claim C2 as amended: the fallback to the two-line default (`"Root"` with
one indented `"Child"`) happens exactly when the stored item list itself is
empty (before blank removal); the embedded literal is then the parsed
default, a single root with one child — never an empty sequence. -/
theorem tree_empty_items_fallback_literal (items : List String)
    (h : items = []) :
    treeLiteralOf items =
      "vec![GenTreeNode \x7b label: \"Root\".to_string(), children: " ++
      "vec![GenTreeNode \x7b label: \"Child\".to_string(), children: " ++
      "vec![] \x7d] \x7d]" := by
  subst h
  rfl

/-- Concrete instantiation of the amended C2 theorem. -/
theorem tree_empty_items_fallback_literal_witness :
    ([] : List String) = [] ∧
    treeLiteralOf [] =
      "vec![GenTreeNode \x7b label: \"Root\".to_string(), children: " ++
      "vec![GenTreeNode \x7b label: \"Child\".to_string(), children: " ++
      "vec![] \x7d] \x7d]" :=
  ⟨rfl, tree_empty_items_fallback_literal [] rfl⟩

/-! ## Data model, src/widget/mod.rs lines 5-115 and src/project.rs.
f32 fields are modelled as rationals (exactly the finite float values);
u64/u32/usize as Nat; i32 as Int. -/

/-- `egui::Pos2`. -/
structure Pos2 where
  x : Rat
  y : Rat

/-- `egui::Vec2`. -/
structure Vec2 where
  x : Rat
  y : Rat

/-- `WidgetId(u64)` from src/widget/mod.rs. -/
structure WidgetId where
  val : Nat

/-- `DockArea` from src/widget/mod.rs. -/
inductive DockArea where
  | Free
  | Top
  | Bottom
  | Left
  | Right
  | Center
deriving DecidableEq

/-- `WidgetKind` from src/widget/mod.rs. -/
inductive WidgetKind where
  | MenuButton
  | Label
  | Button
  | ImageTextButton
  | Checkbox
  | TextEdit
  | Slider
  | ProgressBar
  | RadioGroup
  | Link
  | Hyperlink
  | SelectableLabel
  | ComboBox
  | Separator
  | CollapsingHeader
  | DatePicker
  | AngleSelector
  | Password
  | Tree
deriving DecidableEq

/-- `WidgetProps` from src/widget/mod.rs. -/
structure WidgetProps where
  text : String
  checked : Bool
  value : Rat
  min : Rat
  max : Rat
  items : List String
  selected : Nat
  url : String
  year : Int
  month : Nat
  day : Nat
  icon : String

/-- `Widget` from src/widget/mod.rs. -/
structure Widget where
  id : WidgetId
  kind : WidgetKind
  pos : Pos2
  size : Vec2
  z : Int
  area : DockArea
  props : WidgetProps

/-- `Project` from src/project.rs. -/
structure Project where
  widgets : List Widget
  canvas_size : Vec2
  panel_top_h : Rat
  panel_bottom_h : Rat
  panel_left_w : Rat
  panel_right_w : Rat

/-- `Default for WidgetProps` from src/widget/mod.rs lines 98-115.  The
icon literal in that file is the six-character mojibake sequence
(double-encoded UTF-8) reproduced here with unicode escapes. -/
def WidgetProps.default : WidgetProps :=
  ⟨"Label", false, 0.5, 0, 1, [], 0, "https://example.com", 2024, 1, 1,
   "ðŸ–¼ï¸"⟩

/-- `Default for Project` from src/project.rs lines 15-26. -/
def Project.default : Project :=
  ⟨[], ⟨1200, 800⟩, 80, 80, 220, 260⟩

/-! ## Interchange format: the serde JSON data model of a Project.
`encodeProject` mirrors the derived `Serialize` impls field for field
(structs as objects, `WidgetKind` with adjacent tagging `t`/`c`, unit
variants of `DockArea` as strings, `WidgetId` as its inner number);
`decodeProject` mirrors the derived `Deserialize` impls. -/

/-- The JSON value tree used by the interchange format. -/
inductive Json where
  | null
  | bool (b : Bool)
  | num (q : Rat)
  | str (s : String)
  | arr (elems : List Json)
  | obj (fields : List (String × Json))

/-- Field lookup in a JSON object. -/
def jlookup (key : String) : List (String × Json) → Option Json
  | [] => none
  | (k, v) :: rest => if k = key then some v else jlookup key rest

/-- Decode an f32 field (any JSON number). -/
def decodeF32 : Json → Option Rat
  | .num q => some q
  | _ => none

/-- Decode an unsigned integer field (u64/u32/usize). -/
def decodeNat : Json → Option Nat
  | .num q => if q.den = 1 then (if 0 ≤ q.num then some q.num.toNat else none) else none
  | _ => none

/-- Decode a signed integer field (i32). -/
def decodeInt : Json → Option Int
  | .num q => if q.den = 1 then some q.num else none
  | _ => none

/-- Decode a string field. -/
def decodeStr : Json → Option String
  | .str s => some s
  | _ => none

/-- Decode a boolean field. -/
def decodeBool : Json → Option Bool
  | .bool b => some b
  | _ => none

/-- Decode every element of a JSON array. -/
def decodeList {α : Type} (d : Json → Option α) : List Json → Option (List α)
  | [] => some []
  | x :: rest =>
    match d x, decodeList d rest with
    | some a, some l => some (a :: l)
    | _, _ => none

/-- The serde variant name of a `WidgetKind` (adjacent tagging field `t`). -/
def kindTag : WidgetKind → String
  | .MenuButton => "MenuButton"
  | .Label => "Label"
  | .Button => "Button"
  | .ImageTextButton => "ImageTextButton"
  | .Checkbox => "Checkbox"
  | .TextEdit => "TextEdit"
  | .Slider => "Slider"
  | .ProgressBar => "ProgressBar"
  | .RadioGroup => "RadioGroup"
  | .Link => "Link"
  | .Hyperlink => "Hyperlink"
  | .SelectableLabel => "SelectableLabel"
  | .ComboBox => "ComboBox"
  | .Separator => "Separator"
  | .CollapsingHeader => "CollapsingHeader"
  | .DatePicker => "DatePicker"
  | .AngleSelector => "AngleSelector"
  | .Password => "Password"
  | .Tree => "Tree"

/-- Parse a `WidgetKind` variant name. -/
def kindOfTag : String → Option WidgetKind
  | "MenuButton" => some .MenuButton
  | "Label" => some .Label
  | "Button" => some .Button
  | "ImageTextButton" => some .ImageTextButton
  | "Checkbox" => some .Checkbox
  | "TextEdit" => some .TextEdit
  | "Slider" => some .Slider
  | "ProgressBar" => some .ProgressBar
  | "RadioGroup" => some .RadioGroup
  | "Link" => some .Link
  | "Hyperlink" => some .Hyperlink
  | "SelectableLabel" => some .SelectableLabel
  | "ComboBox" => some .ComboBox
  | "Separator" => some .Separator
  | "CollapsingHeader" => some .CollapsingHeader
  | "DatePicker" => some .DatePicker
  | "AngleSelector" => some .AngleSelector
  | "Password" => some .Password
  | "Tree" => some .Tree
  | _ => none

/-- Serialize a `WidgetKind` (`#[serde(tag = "t", content = "c")]`; unit
variants carry no `c` field). -/
def encodeKind (k : WidgetKind) : Json := .obj [("t", .str (kindTag k))]

/-- Deserialize a `WidgetKind`. -/
def decodeKind : Json → Option WidgetKind
  | .obj f =>
    match jlookup "t" f with
    | some (.str s) => kindOfTag s
    | _ => none
  | _ => none

/-- The serde variant name of a `DockArea` (externally tagged unit variant,
serialized as a bare string). -/
def areaTag : DockArea → String
  | .Free => "Free"
  | .Top => "Top"
  | .Bottom => "Bottom"
  | .Left => "Left"
  | .Right => "Right"
  | .Center => "Center"

/-- Parse a `DockArea` variant name. -/
def areaOfTag : String → Option DockArea
  | "Free" => some .Free
  | "Top" => some .Top
  | "Bottom" => some .Bottom
  | "Left" => some .Left
  | "Right" => some .Right
  | "Center" => some .Center
  | _ => none

/-- Serialize a `DockArea`. -/
def encodeArea (a : DockArea) : Json := .str (areaTag a)

/-- Deserialize a `DockArea`. -/
def decodeArea : Json → Option DockArea
  | .str s => areaOfTag s
  | _ => none

/-- Serialize an `egui::Pos2`. -/
def encodePos2 (p : Pos2) : Json := .obj [("x", .num p.x), ("y", .num p.y)]

/-- Deserialize an `egui::Pos2`. -/
def decodePos2 : Json → Option Pos2
  | .obj f => do
    let x ← decodeF32 (← jlookup "x" f)
    let y ← decodeF32 (← jlookup "y" f)
    pure ⟨x, y⟩
  | _ => none

/-- Serialize an `egui::Vec2`. -/
def encodeVec2 (v : Vec2) : Json := .obj [("x", .num v.x), ("y", .num v.y)]

/-- Deserialize an `egui::Vec2`. -/
def decodeVec2 : Json → Option Vec2
  | .obj f => do
    let x ← decodeF32 (← jlookup "x" f)
    let y ← decodeF32 (← jlookup "y" f)
    pure ⟨x, y⟩
  | _ => none

/-- Serialize a `WidgetProps`, field for field in declaration order. -/
def encodeProps (p : WidgetProps) : Json :=
  .obj [("text", .str p.text), ("checked", .bool p.checked),
        ("value", .num p.value), ("min", .num p.min), ("max", .num p.max),
        ("items", .arr (p.items.map Json.str)),
        ("selected", .num (p.selected : Rat)), ("url", .str p.url),
        ("year", .num (p.year : Rat)), ("month", .num (p.month : Rat)),
        ("day", .num (p.day : Rat)), ("icon", .str p.icon)]

/-- Deserialize the `items` array. -/
def decodeItems : Json → Option (List String)
  | .arr xs => decodeList decodeStr xs
  | _ => none

/-- Decode one field of a JSON object: look the key up, then decode it. -/
def jfield {α : Type} (d : Json → Option α) (key : String)
    (f : List (String × Json)) : Option α :=
  (jlookup key f).bind d

/-- Deserialize a `WidgetProps`. -/
def decodeProps : Json → Option WidgetProps
  | .obj f =>
    (jfield decodeStr "text" f).bind fun text =>
    (jfield decodeBool "checked" f).bind fun checked =>
    (jfield decodeF32 "value" f).bind fun value =>
    (jfield decodeF32 "min" f).bind fun mn =>
    (jfield decodeF32 "max" f).bind fun mx =>
    (jfield decodeItems "items" f).bind fun items =>
    (jfield decodeNat "selected" f).bind fun sel =>
    (jfield decodeStr "url" f).bind fun url =>
    (jfield decodeInt "year" f).bind fun year =>
    (jfield decodeNat "month" f).bind fun month =>
    (jfield decodeNat "day" f).bind fun day =>
    (jfield decodeStr "icon" f).bind fun icon =>
    some ⟨text, checked, value, mn, mx, items, sel, url, year, month, day, icon⟩
  | _ => none

/-- Serialize a `Widget`, field for field in declaration order. -/
def encodeWidget (w : Widget) : Json :=
  .obj [("id", .num (w.id.val : Rat)), ("kind", encodeKind w.kind),
        ("pos", encodePos2 w.pos), ("size", encodeVec2 w.size),
        ("z", .num (w.z : Rat)), ("area", encodeArea w.area),
        ("props", encodeProps w.props)]

/-- Deserialize a `Widget`. -/
def decodeWidget : Json → Option Widget
  | .obj f =>
    (jfield decodeNat "id" f).bind fun id =>
    (jfield decodeKind "kind" f).bind fun kind =>
    (jfield decodePos2 "pos" f).bind fun pos =>
    (jfield decodeVec2 "size" f).bind fun size =>
    (jfield decodeInt "z" f).bind fun z =>
    (jfield decodeArea "area" f).bind fun area =>
    (jfield decodeProps "props" f).bind fun props =>
    some ⟨⟨id⟩, kind, pos, size, z, area, props⟩
  | _ => none

/-- Deserialize the `widgets` array. -/
def decodeWidgets : Json → Option (List Widget)
  | .arr xs => decodeList decodeWidget xs
  | _ => none

/-- Serialize a `Project`, field for field in declaration order. -/
def encodeProject (p : Project) : Json :=
  .obj [("widgets", .arr (p.widgets.map encodeWidget)),
        ("canvas_size", encodeVec2 p.canvas_size),
        ("panel_top_h", .num p.panel_top_h),
        ("panel_bottom_h", .num p.panel_bottom_h),
        ("panel_left_w", .num p.panel_left_w),
        ("panel_right_w", .num p.panel_right_w)]

/-- Deserialize a `Project`. -/
def decodeProject : Json → Option Project
  | .obj f =>
    (jfield decodeWidgets "widgets" f).bind fun widgets =>
    (jfield decodeVec2 "canvas_size" f).bind fun canvas =>
    (jfield decodeF32 "panel_top_h" f).bind fun pth =>
    (jfield decodeF32 "panel_bottom_h" f).bind fun pbh =>
    (jfield decodeF32 "panel_left_w" f).bind fun plw =>
    (jfield decodeF32 "panel_right_w" f).bind fun prw =>
    some ⟨widgets, canvas, pth, pbh, plw, prw⟩
  | _ => none

lemma decodeNat_num_natCast (n : Nat) :
    decodeNat (Json.num (n : Rat)) = some n := by
  simp [decodeNat]

lemma decodeInt_num_intCast (z : Int) :
    decodeInt (Json.num (z : Rat)) = some z := by
  simp [decodeInt]

lemma decodeKind_encodeKind (k : WidgetKind) :
    decodeKind (encodeKind k) = some k := by
  cases k <;> rfl

lemma decodeArea_encodeArea (a : DockArea) :
    decodeArea (encodeArea a) = some a := by
  cases a <;> rfl

lemma decodePos2_encodePos2 (p : Pos2) :
    decodePos2 (encodePos2 p) = some p := by
  cases p
  rfl

lemma decodeVec2_encodeVec2 (v : Vec2) :
    decodeVec2 (encodeVec2 v) = some v := by
  cases v
  rfl

lemma decodeItems_map_str (l : List String) :
    decodeItems (Json.arr (l.map Json.str)) = some l := by
  induction l with
  | nil => rfl
  | cons s rest ih =>
    have ih2 : decodeList decodeStr (rest.map Json.str) = some rest := ih
    simp [decodeItems, decodeList, decodeStr, ih2]

lemma decodeProps_encodeProps (p : WidgetProps) :
    decodeProps (encodeProps p) = some p := by
  cases p
  simp [decodeProps, encodeProps, jfield, jlookup, decodeStr, decodeBool,
    decodeF32, decodeItems_map_str, decodeNat_num_natCast,
    decodeInt_num_intCast]

lemma decodeWidget_encodeWidget (w : Widget) :
    decodeWidget (encodeWidget w) = some w := by
  cases w with
  | mk id kind pos size z area props =>
    cases id
    simp [decodeWidget, encodeWidget, jfield, jlookup, decodeNat_num_natCast,
      decodeKind_encodeKind, decodePos2_encodePos2, decodeVec2_encodeVec2,
      decodeInt_num_intCast, decodeArea_encodeArea, decodeProps_encodeProps]

lemma decodeWidgets_map_encode (ws : List Widget) :
    decodeWidgets (Json.arr (ws.map encodeWidget)) = some ws := by
  induction ws with
  | nil => rfl
  | cons w rest ih =>
    have ih2 : decodeList decodeWidget (rest.map encodeWidget) = some rest := ih
    simp [decodeWidgets, decodeList, decodeWidget_encodeWidget, ih2]

lemma decodeProject_encodeProject (p : Project) :
    decodeProject (encodeProject p) = some p := by
  cases p
  simp [decodeProject, encodeProject, jfield, jlookup,
    decodeWidgets_map_encode, decodeVec2_encodeVec2, decodeF32]

/-- Claim C5: decoding the interchange encoding of any Project reproduces
it exactly — every widget's id, kind, position, size, z, dock area and full
property bag, and the canvas/panel settings (transient editor-only state is
not part of the Project and is never encoded). -/
theorem project_roundtrip (p : Project) :
    decodeProject (encodeProject p) = some p :=
  decodeProject_encodeProject p

/-! ## Editor application state and the import operation,
src/app.rs (`RadBuilderApp`, `modals`). -/

/-- The fields of `RadBuilderApp` that the modelled operations touch
(src/app.rs lines 15-42): the document, the selection, the fresh-id
counter, the snapping grid size, and the cached generated code. -/
structure AppState where
  project : Project
  selected : Option WidgetId
  nextId : Nat
  gridSize : Rat
  generated : String

/-- The `Default for RadBuilderApp` values of the modelled fields
(src/app.rs lines 51-72). -/
def AppState.default : AppState :=
  ⟨Project.default, none, 1, 14, ""⟩

/-- The `next_id` recomputation after a successful import
(src/app.rs lines 1140-1141):
`widgets.iter().map(id).max().map(|id| id + 1).unwrap_or(0)`. -/
def nextIdAfterImport (p : Project) : Nat :=
  match (p.widgets.map (fun w => w.id.val)).max? with
  | some m => m + 1
  | none => 0

/-- The Import-modal paste handler (src/app.rs lines 1133-1145): if the
clipboard decodes as a Project, replace the document, clear the selection,
recompute the fresh-id counter and clear the cached code; otherwise do
nothing. -/
def importProject (s : AppState) (j : Json) : AppState :=
  match decodeProject j with
  | some p =>
    { s with project := p, selected := none, nextId := nextIdAfterImport p,
             generated := "" }
  | none => s

/-- Claim C6: an import whose content fails to decode as the interchange
schema is a no-op — the whole application state, in particular the
in-memory Scene, is exactly what it was before the attempt. -/
theorem import_failure_noop (s : AppState) (j : Json)
    (h : decodeProject j = none) : importProject s j = s := by
  simp [importProject, h]

/-- Concrete instantiation of the C6 theorem: a null document does not
decode, and importing it leaves the default state untouched. -/
theorem import_failure_noop_witness :
    decodeProject Json.null = none ∧
    importProject AppState.default Json.null = AppState.default :=
  ⟨rfl, import_failure_noop AppState.default Json.null rfl⟩

/-! ## Code generation: numeric formatting, per-kind emission
(src/widget/mod.rs `Widget::emit_widget`) and the program assembler
(src/app.rs `generate_code`). -/

/-- Rust `usize` subtraction, which panics on underflow: modelled as an
Option. -/
def checkedSub (a b : Nat) : Option Nat :=
  if b ≤ a then some (a - b) else none

/-- Rust `clamp` on floats (assuming `lo ≤ hi`, as at every call site):
below `lo` gives `lo`, above `hi` gives `hi`, otherwise unchanged. -/
def clampRat (x lo hi : Rat) : Rat :=
  if x < lo then lo else if hi < x then hi else x

/-- Rust `clamp` on unsigned integers. -/
def clampNat (x lo hi : Nat) : Nat :=
  if x < lo then lo else if hi < x then hi else x

/-- Round to the nearest integer, ties to even — the rounding used by
Rust's fixed-precision float formatting. -/
def roundHalfEven (q : Rat) : Int :=
  let f := q.floor
  let r := q - (f : Rat)
  if r < 1/2 then f
  else if 1/2 < r then f + 1
  else if f % 2 = 0 then f else f + 1

/-- Rust `{:.prec}` fixed-precision formatting of a (finite) float value,
always with `.` as the decimal separator. -/
def fmtFixed (prec : Nat) (q : Rat) : String :=
  let scaled := roundHalfEven (q * ((10 ^ prec : Nat) : Rat))
  let sign := if scaled < 0 then "-" else ""
  let a := scaled.natAbs
  if prec = 0 then sign ++ toString a
  else
    let fs := toString (a % 10 ^ prec)
    sign ++ toString (a / 10 ^ prec) ++ "." ++
      String.mk (List.replicate (prec - fs.length) '0') ++ fs

/-- `{:.1}` formatting (geometry). -/
def fmt1 (q : Rat) : String := fmtFixed 1 q

/-- `{:.3}` formatting (slider/progress/angle values). -/
def fmt3 (q : Rat) : String := fmtFixed 3 q

/-- Rust `{}` formatting of a bool. -/
def boolStr (b : Bool) : String := if b then "true" else "false"

/-- The inline item-list literal shared by the MenuButton, RadioGroup and
ComboBox arms of `emit_widget`: escaped string literals, with a single
placeholder `"Item"` when the list is empty. -/
def itemsCode (items : List String) : String :=
  if items.isEmpty then "\"Item\".to_string()"
  else String.intercalate ", "
    (items.map (fun s => "\"" ++ escape s ++ "\".to_string()"))

/-- The common prefix of every `emit_widget` arm: allocate the fixed-size
sub-region at `origin + (pos.x, pos.y)` sized `(size.x, size.y)`. -/
def rectPrefix (origin : String) (pos : Pos2) (size : Vec2) : String :=
  "    ui.scope_builder(egui::UiBuilder::new().max_rect(egui::Rect::" ++
  "from_min_size(" ++ origin ++ " + egui::vec2(" ++ fmt1 pos.x ++ "," ++
  fmt1 pos.y ++ "), egui::vec2(" ++ fmt1 size.x ++ "," ++ fmt1 size.y ++
  ")))"

/-- `Widget::emit_widget` from src/widget/mod.rs lines 127-418: the
construction statement emitted for one widget against a region origin
expression.  Literal braces of the generated Rust text are written with
hex escapes. -/
def emit_widget (w : Widget) (origin : String) : String :=
  let idStr := toString w.id.val
  let pre := rectPrefix origin w.pos w.size
  match w.kind with
  | .MenuButton =>
    pre ++ ", |ui| \x7b\n" ++
    "        let items = vec![" ++ itemsCode w.props.items ++ "];\n" ++
    "        ui.menu_button(\"" ++ escape w.props.text ++ "\", |ui| \x7b\n" ++
    "            for (i, it) in items.iter().enumerate() \x7b if " ++
    "ui.button(it).clicked() \x7b state.sel_" ++ idStr ++
    " = i; ui.close_kind(egui::UiKind::Menu); \x7d \x7d\n" ++
    "        \x7d);\n" ++
    "    \x7d);\n"
  | .Label =>
    pre ++ ", |ui| \x7b ui.label(\"" ++ escape w.props.text ++
    "\"); \x7d);\n"
  | .Button =>
    pre ++ ", |ui| \x7b ui.add_sized(egui::vec2(" ++ fmt1 w.size.x ++ "," ++
    fmt1 w.size.y ++ "), egui::Button::new(\"" ++ escape w.props.text ++
    "\")); \x7d);\n"
  | .ImageTextButton =>
    pre ++ ", |ui| \x7b ui.add_sized(egui::vec2(" ++ fmt1 w.size.x ++ "," ++
    fmt1 w.size.y ++ "), egui::Button::new(format!(\"\x7b\x7d  \x7b\x7d\", \"" ++
    escape w.props.icon ++ "\", \"" ++ escape w.props.text ++
    "\")) ); \x7d);\n"
  | .Checkbox =>
    pre ++ ", |ui| \x7b ui.checkbox(&mut state.checked_" ++ idStr ++
    ", \"" ++ escape w.props.text ++ "\"); \x7d);\n"
  | .TextEdit =>
    pre ++ ", |ui| \x7b ui.add_sized(egui::vec2(" ++ fmt1 w.size.x ++ "," ++
    fmt1 w.size.y ++ "), egui::TextEdit::singleline(&mut state.text_" ++
    idStr ++ ").hint_text(\"" ++ escape w.props.text ++ "\")); \x7d);\n"
  | .Slider =>
    pre ++ ", |ui| \x7b ui.add_sized(egui::vec2(" ++ fmt1 w.size.x ++ "," ++
    fmt1 w.size.y ++ "), egui::Slider::new(&mut state.value_" ++ idStr ++
    ", " ++ fmt3 w.props.min ++ "..=" ++ fmt3 w.props.max ++
    ").text(\"" ++ escape w.props.text ++ "\")); \x7d);\n"
  | .ProgressBar =>
    pre ++ ", |ui| \x7b ui.add_sized(egui::vec2(" ++ fmt1 w.size.x ++ "," ++
    fmt1 w.size.y ++ "), egui::ProgressBar::new(state.progress_" ++ idStr ++
    ").show_percentage()); \x7d);\n"
  | .RadioGroup =>
    pre ++ ", |ui| \x7b\n" ++
    "        let items = vec![" ++ itemsCode w.props.items ++ "];\n" ++
    "        for (i, it) in items.iter().enumerate() \x7b if " ++
    "ui.add(egui::RadioButton::new(state.sel_" ++ idStr ++
    " == i, it)).clicked() \x7b state.sel_" ++ idStr ++
    " = i; \x7d \x7d\n" ++
    "    \x7d);\n"
  | .Link =>
    pre ++ ", |ui| \x7b ui.link(\"" ++ escape w.props.text ++
    "\"); \x7d);\n"
  | .Hyperlink =>
    pre ++ ", |ui| \x7b ui.hyperlink_to(\"" ++ escape w.props.text ++
    "\", \"" ++ escape w.props.url ++ "\"); \x7d);\n"
  | .SelectableLabel =>
    pre ++ ", |ui| \x7b if ui.add(egui::Button::selectable(state.sel_" ++
    idStr ++ ", \"" ++ escape w.props.text ++
    "\")).clicked() \x7b state.sel_" ++ idStr ++ " = !state.sel_" ++
    idStr ++ "; \x7d \x7d);\n"
  | .ComboBox =>
    pre ++ ", |ui| \x7b\n" ++
    "        let items = vec![" ++ itemsCode w.props.items ++ "];\n" ++
    "        egui::ComboBox::from_id_source(" ++ idStr ++ ")\n" ++
    "            .width(" ++ fmt1 w.size.x ++ ")\n" ++
    "            .selected_text(items.get(state.sel_" ++ idStr ++
    ").cloned().unwrap_or_else(|| \"\".to_string()))\n" ++
    "            .show_ui(ui, |ui| \x7b\n" ++
    "                for (i, it) in items.iter().enumerate() \x7b " ++
    "ui.selectable_value(&mut state.sel_" ++ idStr ++
    ", i, it.clone()); \x7d\n" ++
    "            \x7d);\n" ++
    "    \x7d);\n"
  | .Separator =>
    pre ++ ", |ui| \x7b ui.separator(); \x7d);\n"
  | .CollapsingHeader =>
    pre ++ ", |ui| \x7b egui::CollapsingHeader::new(\"" ++
    escape w.props.text ++ "\").default_open(state.open_" ++ idStr ++
    ").show(ui, |ui| \x7b ui.label(\"â€¦ place your inner content here " ++
    "â€¦\"); \x7d); \x7d);\n"
  | .DatePicker =>
    pre ++ ", |ui| \x7b ui.horizontal(|ui| \x7b ui.label(\"" ++
    escape w.props.text ++ "\"); ui.add(DatePickerButton::new(" ++
    "&mut state.date_" ++ idStr ++ ")); \x7d); \x7d);\n"
  | .Password =>
    pre ++ ", |ui| \x7b ui.add_sized(egui::vec2(" ++ fmt1 w.size.x ++ "," ++
    fmt1 w.size.y ++ "), egui::TextEdit::singleline(&mut state.pass_" ++
    idStr ++ ").password(true).hint_text(\"password\") ); \x7d);\n"
  | .AngleSelector =>
    pre ++ ", |ui| \x7b ui.add_sized(egui::vec2(" ++ fmt1 w.size.x ++ "," ++
    fmt1 w.size.y ++ "), egui::Slider::new(&mut state.angle_" ++ idStr ++
    ", " ++ fmt3 w.props.min ++ "..=" ++ fmt3 w.props.max ++
    ").suffix(\"Â°\").text(\"" ++ escape w.props.text ++
    "\") ); \x7d);\n"
  | .Tree =>
    pre ++ ", |ui| \x7b let nodes: Vec<GenTreeNode> = " ++
    treeLiteralOf w.props.items ++
    "; egui::ScrollArea::vertical().auto_shrink([false,false])" ++
    ".show(ui, |ui| \x7b gen_show_tree(ui, &nodes); \x7d); \x7d);\n"

/-- Modelled from the spec: `generate_code` (src/app.rs) reads four
per-region enable flags `panel_top_enabled`, `panel_bottom_enabled`,
`panel_left_enabled`, `panel_right_enabled` from the Project, but the
snapshot's src/project.rs declares no such fields; following section 3 of
the spec ("Project/Scene: ordered collection of Widgets plus global canvas
size and per-region enable flags"), the generator's input is modelled as
the widget list, the canvas size and the four flags. -/
structure Scene where
  widgets : List Widget
  canvas_size : Vec2
  panel_top_enabled : Bool
  panel_bottom_enabled : Bool
  panel_left_enabled : Bool
  panel_right_enabled : Bool

/-- The state-record field emitted for one widget (src/app.rs lines
1226-1244); stateless kinds contribute nothing. -/
def stateFieldChunk (w : Widget) : String :=
  let idStr := toString w.id.val
  match w.kind with
  | .TextEdit => "    text_" ++ idStr ++ ": String,\n"
  | .Checkbox => "    checked_" ++ idStr ++ ": bool,\n"
  | .Slider => "    value_" ++ idStr ++ ": f32,\n"
  | .ProgressBar => "    progress_" ++ idStr ++ ": f32,\n"
  | .SelectableLabel => "    sel_" ++ idStr ++ ": bool,\n"
  | .RadioGroup | .ComboBox | .MenuButton => "    sel_" ++ idStr ++ ": usize,\n"
  | .CollapsingHeader => "    open_" ++ idStr ++ ": bool,\n"
  | .DatePicker => "    date_" ++ idStr ++ ": NaiveDate,\n"
  | .Password => "    pass_" ++ idStr ++ ": String,\n"
  | .AngleSelector => "    angle_" ++ idStr ++ ": f32,\n"
  | _ => ""

/-- The four region-enable flag fields, always emitted first into the
state record (src/app.rs lines 1223-1225). -/
def enableFieldsLine : String :=
  "    enable_top: bool, enable_bottom: bool, enable_left: bool, " ++
  "enable_right: bool,\n"

/-- Everything between the braces of the generated `GeneratedState`
record. -/
def stateRecordFieldsText (s : Scene) : String :=
  enableFieldsLine ++ String.join (s.widgets.map stateFieldChunk)

/-- The full `struct GeneratedState` block. -/
def stateStructBlock (s : Scene) : String :=
  "struct GeneratedState \x7b\n" ++ stateRecordFieldsText s ++ "\x7d\n\n"

/-- The enable-flag line of the generated `Default` impl (src/app.rs
lines 1250-1272). -/
def enableDefaultsLine (s : Scene) : String :=
  "            enable_top: " ++ boolStr s.panel_top_enabled ++
  ", enable_bottom: " ++ boolStr s.panel_bottom_enabled ++
  ", enable_left: " ++ boolStr s.panel_left_enabled ++
  ", enable_right: " ++ boolStr s.panel_right_enabled ++ ",\n"

/-- The default selection index emitted for the RadioGroup, ComboBox and
MenuButton arms (src/app.rs lines 1307-1313):
`if items.is_empty() { 0 } else { selected.min(items.len() - 1) }`,
the usize subtraction modelled as `checkedSub`. -/
def genSelDefault (items : List String) (selected : Nat) : Option Nat :=
  if items.isEmpty then some 0
  else (checkedSub items.length 1).map (fun m => Nat.min selected m)

/-- The default-initializer line emitted for one widget (src/app.rs lines
1274-1345); stateless kinds contribute nothing. -/
def defaultInitChunk (w : Widget) : Option String :=
  let idStr := toString w.id.val
  match w.kind with
  | .TextEdit =>
    some ("            text_" ++ idStr ++ ": \"" ++ escape w.props.text ++
      "\".to_owned(),\n")
  | .Checkbox =>
    some ("            checked_" ++ idStr ++ ": " ++
      boolStr w.props.checked ++ ",\n")
  | .Slider =>
    some ("            value_" ++ idStr ++ ": " ++ fmt3 w.props.value ++
      ",\n")
  | .ProgressBar =>
    some ("            progress_" ++ idStr ++ ": " ++
      fmt3 (clampRat w.props.value 0 1) ++ ",\n")
  | .SelectableLabel =>
    some ("            sel_" ++ idStr ++ ": " ++ boolStr w.props.checked ++
      ",\n")
  | .RadioGroup | .ComboBox | .MenuButton =>
    (genSelDefault w.props.items w.props.selected).map (fun sel =>
      "            sel_" ++ idStr ++ ": " ++ toString sel ++ ",\n")
  | .CollapsingHeader =>
    some ("            open_" ++ idStr ++ ": " ++ boolStr w.props.checked ++
      ",\n")
  | .DatePicker =>
    some ("            date_" ++ idStr ++ ": NaiveDate::from_ymd_opt(" ++
      toString w.props.year ++ ", " ++
      toString (clampNat w.props.month 1 12) ++ ", " ++
      toString (clampNat w.props.day 1 28) ++ ").unwrap(),\n")
  | .Password =>
    some ("            pass_" ++ idStr ++ ": \"" ++ escape w.props.text ++
      "\".to_owned(),\n")
  | .AngleSelector =>
    some ("            angle_" ++ idStr ++ ": " ++ fmt3 w.props.value ++
      ",\n")
  | _ => some ""

/-- All default-initializer lines, in scene iteration order. -/
def defaultInitLines : List Widget → Option String
  | [] => some ""
  | w :: rest =>
    match defaultInitChunk w, defaultInitLines rest with
    | some a, some b => some (a ++ b)
    | _, _ => none

/-- The fixed header of the generated program (src/app.rs lines
1197-1201). -/
def headerText : String :=
  "// --- generated by egui RAD GUI Builder ---\nuse eframe::egui;\n" ++
  "use egui_extras::DatePickerButton;\nuse chrono::NaiveDate;\n\n"

/-- The shared tree-rendering helper, emitted once when at least one tree
widget is present (src/app.rs lines 1209-1219). -/
def treeHelperText : String :=
  "#[derive(Clone)]\nstruct GenTreeNode \x7b label: String, children: " ++
  "Vec<GenTreeNode> \x7d\n\nfn gen_show_tree(ui: &mut egui::Ui, nodes: " ++
  "&[GenTreeNode]) \x7b\n\tfor n in nodes \x7b\n\t\tif " ++
  "n.children.is_empty() \x7b ui.label(&n.label); \x7d\n\t\telse \x7b " ++
  "ui.collapsing(&n.label, |ui| gen_show_tree(ui, &n.children)); " ++
  "\x7d\n\t\x7d\n\x7d\n\n"

/-- The fixed trailer: host app scaffold and entry point (src/app.rs lines
1433-1445). -/
def trailerText : String :=
  "pub struct GeneratedApp \x7b state: GeneratedState \x7d\n" ++
  "impl Default for GeneratedApp \x7b fn default() -> Self \x7b Self " ++
  "\x7b state: Default::default() \x7d \x7d \x7d\n" ++
  "impl eframe::App for GeneratedApp \x7b\n" ++
  "\tfn update(&mut self, ctx: &egui::Context, _frame: &mut " ++
  "eframe::Frame) \x7b\n\t\tgenerated_ui(ctx, &mut self.state);\n" ++
  "\t\x7d\n\x7d\n\n" ++
  "fn main() -> eframe::Result<()> \x7b\n" ++
  "\tlet native_options = eframe::NativeOptions::default();\n" ++
  "\teframe::run_native(\"Generated UI\", native_options, " ++
  "Box::new(|_cc| Ok(Box::new(GeneratedApp::default()))))\n\x7d\n"

/-- The bucket of widgets assigned to one dock area, preserving order
(src/app.rs lines 1351-1366). -/
def areaFilter (a : DockArea) (ws : List Widget) : List Widget :=
  ws.filter (fun w => w.area = a)

/-- One of the four conditionally-enabled docked-region blocks of the
generated ui function (src/app.rs lines 1371-1412). -/
def panelBlock (flagName ctor ctorArg : String) (ws : List Widget) : String :=
  "    if state." ++ flagName ++ " \x7b\n" ++
  "        egui::" ++ ctor ++ "(\"" ++ ctorArg ++ "\")\n" ++
  "            .resizable(true)\n" ++
  "            .show(ctx, |ui| \x7b\n" ++
  String.join (ws.map (fun w => emit_widget w "ui.min_rect().min")) ++
  "            \x7d);\n" ++
  "    \x7d\n"

/-- The construction statements of the central region: the Center bucket
followed by the Free bucket, both against `canvas.min` (src/app.rs lines
1422-1427). -/
def centerWidgetStmts (s : Scene) : String :=
  String.join ((areaFilter .Center s.widgets).map
    (fun w => emit_widget w "canvas.min")) ++
  String.join ((areaFilter .Free s.widgets).map
    (fun w => emit_widget w "canvas.min"))

/-- The central-panel block of the generated ui function (src/app.rs lines
1415-1428). -/
def centerBlock (s : Scene) : String :=
  "    egui::CentralPanel::default().show(ctx, |ui| \x7b\n" ++
  "        let canvas = egui::Rect::from_min_size(ui.min_rect().min, " ++
  "egui::vec2(" ++ fmt1 s.canvas_size.x ++ ", " ++ fmt1 s.canvas_size.y ++
  "));\n" ++
  "        let _ = ui.allocate_painter(canvas.size(), " ++
  "egui::Sense::hover());\n" ++
  centerWidgetStmts s ++
  "    \x7d);\n"

/-- `generate_code` from src/app.rs lines 1192-1446: the complete program
text assembled from header, optional tree helper, state record, default
impl, per-region ui function and trailer.  The only fallible step is the
checked usize subtraction inside the selection defaults. -/
def generate_code (s : Scene) : Option String :=
  match defaultInitLines s.widgets with
  | none => none
  | some defaults =>
    let has_tree := s.widgets.any (fun w => w.kind = .Tree)
    some (headerText ++ (if has_tree then treeHelperText else "") ++
      stateStructBlock s ++
      ("impl Default for GeneratedState \x7b\n    fn default() -> Self " ++
       "\x7b\n        Self \x7b\n" ++ enableDefaultsLine s ++ defaults ++
       "        \x7d\n    \x7d\n\x7d\n\n") ++
      ("fn generated_ui(ctx: &egui::Context, state: &mut GeneratedState) " ++
       "\x7b\n" ++
       panelBlock "enable_top" "TopBottomPanel::top" "gen_top"
         (areaFilter .Top s.widgets) ++
       panelBlock "enable_bottom" "TopBottomPanel::bottom" "gen_bottom"
         (areaFilter .Bottom s.widgets) ++
       panelBlock "enable_left" "SidePanel::left" "gen_left"
         (areaFilter .Left s.widgets) ++
       panelBlock "enable_right" "SidePanel::right" "gen_right"
         (areaFilter .Right s.widgets) ++
       centerBlock s ++ "\x7d\n\n") ++
      trailerText)

lemma genSelDefault_isSome (items : List String) (sel : Nat) :
    (genSelDefault items sel).isSome := by
  unfold genSelDefault
  by_cases h : items.isEmpty
  · simp [h]
  · have hlen : items.length ≠ 0 := by
      cases items with
      | nil => simp at h
      | cons a l => simp
    have h1 : 1 ≤ items.length := by omega
    simp [h, checkedSub, h1]

lemma defaultInitChunk_isSome (w : Widget) :
    (defaultInitChunk w).isSome := by
  cases hk : w.kind <;>
    simp [defaultInitChunk, hk, genSelDefault_isSome]

lemma defaultInitLines_isSome (ws : List Widget) :
    (defaultInitLines ws).isSome := by
  induction ws with
  | nil => rfl
  | cons w rest ih =>
    obtain ⟨a, ha⟩ := Option.isSome_iff_exists.mp (defaultInitChunk_isSome w)
    obtain ⟨b, hb⟩ := Option.isSome_iff_exists.mp ih
    simp [defaultInitLines, ha, hb]

lemma generate_code_isSome (s : Scene) : (generate_code s).isSome := by
  obtain ⟨d, hd⟩ :=
    Option.isSome_iff_exists.mp (defaultInitLines_isSome s.widgets)
  simp [generate_code, hd]

/-- Claim C4: code generation is total — for every Scene, including empty
widget lists, empty item lists and out-of-range selected indices,
`generate_code` produces a complete program text; in particular the
`items.len() - 1` subtraction (modelled as a checked subtraction) is
guarded by the emptiness test, so no panic or rejection path is
reachable. -/
theorem generate_code_total (s : Scene) : (generate_code s).isSome :=
  generate_code_isSome s

/-- Claim C3: for every radio-group, combo-box or menu-button widget, the
generated `sel_<id>` default initializer is an integer literal `k` with
`k < items.length` whenever the item list is non-empty, and exactly `0`
when it is empty — never an out-of-range index. -/
theorem sel_default_index_in_range (w : Widget)
    (hk : w.kind = .RadioGroup ∨ w.kind = .ComboBox ∨ w.kind = .MenuButton) :
    ∃ k, genSelDefault w.props.items w.props.selected = some k ∧
      defaultInitChunk w = some ("            sel_" ++ toString w.id.val ++
        ": " ++ toString k ++ ",\n") ∧
      (0 < w.props.items.length → k < w.props.items.length) ∧
      (w.props.items.length = 0 → k = 0) := by
  obtain ⟨k, hsel⟩ :=
    Option.isSome_iff_exists.mp
      (genSelDefault_isSome w.props.items w.props.selected)
  refine ⟨k, hsel, ?_, ?_, ?_⟩
  · rcases hk with h | h | h <;> simp [defaultInitChunk, h, hsel]
  · intro hpos
    by_cases he : w.props.items.isEmpty
    · have : w.props.items.length = 0 := by
        cases hi : w.props.items with
        | nil => simp
        | cons a l => rw [hi] at he; simp at he
      omega
    · have h1 : 1 ≤ w.props.items.length := by omega
      rw [genSelDefault, if_neg he, checkedSub, if_pos h1] at hsel
      have hk2 : Nat.min w.props.selected (w.props.items.length - 1) = k :=
        Option.some.inj hsel
      have hk3 : k ≤ w.props.items.length - 1 := by
        rw [← hk2]
        exact Nat.min_le_right _ _
      omega
  · intro hzero
    have he : w.props.items.isEmpty := by
      cases hi : w.props.items with
      | nil => simp
      | cons a l => rw [hi] at hzero; simp at hzero
    rw [genSelDefault, if_pos he] at hsel
    simpa using hsel.symm

/-- A concrete radio group with two items and stored selected index 5. -/
def wRadioExample : Widget :=
  ⟨⟨7⟩, .RadioGroup, ⟨0, 0⟩, ⟨200, 80⟩, 7, .Free,
   { WidgetProps.default with items := ["A", "B"], selected := 5 }⟩

/-- Concrete instantiation of the C3 theorem, all hypotheses discharged. -/
theorem sel_default_index_in_range_witness :
    ∃ k, genSelDefault wRadioExample.props.items
        wRadioExample.props.selected = some k ∧
      defaultInitChunk wRadioExample =
        some ("            sel_" ++ toString wRadioExample.id.val ++
          ": " ++ toString k ++ ",\n") ∧
      (0 < wRadioExample.props.items.length →
        k < wRadioExample.props.items.length) ∧
      (wRadioExample.props.items.length = 0 → k = 0) :=
  sel_default_index_in_range wRadioExample (Or.inl rfl)

/-- The empty Scene of Scenario D: no widgets, all four docked regions
disabled. -/
def emptyScene : Scene := ⟨[], ⟨1200, 800⟩, false, false, false, false⟩

/-- Claim C7 (counterexample): generation on the empty Scene succeeds, but
the generated state record is NOT empty — it always contains the four
region-enable flag fields. -/
theorem empty_scene_state_record_not_fieldless :
    (generate_code emptyScene).isSome ∧
    stateRecordFieldsText emptyScene ≠ "" ∧
    stateRecordFieldsText emptyScene = enableFieldsLine :=
  ⟨generate_code_isSome emptyScene, by decide, by decide⟩

/-- Claim C7 as amended: for the empty Scene, generation succeeds and the
program is minimal — the state record contains no widget-derived fields
(only the four region-enable flags) and the Center region body contains no
widget construction statements. -/
theorem empty_scene_minimal_program :
    (generate_code emptyScene).isSome ∧
    String.join (emptyScene.widgets.map stateFieldChunk) = "" ∧
    centerWidgetStmts emptyScene = "" :=
  ⟨generate_code_isSome emptyScene, rfl, by decide⟩

/-! ## Editor operations that create, copy and remove widgets
(src/app.rs `spawn_widget`, `inspector_ui` Duplicate/Delete) and the
fresh-id invariant. -/

/-- `WidgetId::as_z`: the `u64 as i32` wrapping cast. -/
def u64_as_i32 (n : Nat) : Int :=
  if n % 2 ^ 32 < 2 ^ 31 then ((n % 2 ^ 32 : Nat) : Int)
  else ((n % 2 ^ 32 : Nat) : Int) - 2 ^ 32

/-- Rust `f32::round`: round half away from zero. -/
def roundAway (q : Rat) : Int :=
  if 0 ≤ q then (q + 1/2).floor else -((-q + 1/2).floor)

/-- `snap_pos_with_grid` from src/widget/mod.rs lines 117-119. -/
def snap_pos_with_grid (p : Pos2) (grid : Rat) : Pos2 :=
  ⟨(roundAway (p.x / grid) : Rat) * grid,
   (roundAway (p.y / grid) : Rat) * grid⟩

/-- The per-kind default size and props assigned by `spawn_widget`
(src/app.rs lines 112-275). -/
def spawnDefaults : WidgetKind → Vec2 × WidgetProps
  | .MenuButton =>
    (⟨180, 28⟩,
     { WidgetProps.default with
       text := "Menu", items := ["First", "Second", "Third"], selected := 0 })
  | .Label => (⟨140, 24⟩, { WidgetProps.default with text := "Label" })
  | .Button => (⟨160, 32⟩, { WidgetProps.default with text := "Button" })
  | .ImageTextButton =>
    (⟨200, 36⟩,
     { WidgetProps.default with text := "Button", icon := "🖼️" })
  | .Checkbox => (⟨160, 28⟩, { WidgetProps.default with text := "Checkbox" })
  | .TextEdit => (⟨220, 36⟩, { WidgetProps.default with text := "Type here" })
  | .Slider =>
    (⟨220, 24⟩,
     { WidgetProps.default with
       text := "Value", min := 0, max := 100, value := 42, checked := false })
  | .ProgressBar =>
    (⟨220, 20⟩,
     { WidgetProps.default with
       text := "", value := 0.25, min := 0, max := 1, checked := false })
  | .RadioGroup =>
    (⟨200, 80⟩,
     { WidgetProps.default with
       text := "Radio Group", items := ["Option A", "Option B", "Option C"],
       selected := 0 })
  | .Link => (⟨160, 20⟩, { WidgetProps.default with text := "Link text" })
  | .Hyperlink =>
    (⟨200, 20⟩,
     { WidgetProps.default with
       text := "Open website", url := "https://example.com" })
  | .SelectableLabel =>
    (⟨180, 24⟩,
     { WidgetProps.default with text := "Selectable", checked := false })
  | .ComboBox =>
    (⟨220, 28⟩,
     { WidgetProps.default with
       text := "Choose one", items := ["Red", "Green", "Blue"],
       selected := 0 })
  | .Separator => (⟨220, 8⟩, WidgetProps.default)
  | .CollapsingHeader =>
    (⟨260, 80⟩,
     { WidgetProps.default with text := "Section", checked := true })
  | .DatePicker =>
    (⟨200, 28⟩,
     { WidgetProps.default with
       text := "Pick a date", year := 2025, month := 1, day := 1 })
  | .AngleSelector =>
    (⟨220, 28⟩,
     { WidgetProps.default with
       text := "Angle (deg)", min := 0, max := 360, value := 45 })
  | .Password => (⟨220, 36⟩, { WidgetProps.default with text := "password" })
  | .Tree =>
    (⟨260, 200⟩,
     { WidgetProps.default with
       text := "Tree",
       items := ["Animals", "  Mammals", "    Dogs", "    Cats", "  Birds",
         "Plants", "  Trees", "  Flowers"] })

/-- `spawn_widget` from src/app.rs lines 102-290: assign the current
fresh-id counter, increment it, push the widget and select it. -/
def spawn_widget (s : AppState) (kind : WidgetKind) (at_global : Pos2)
    (area : DockArea) (area_origin : Pos2) : AppState :=
  let id := s.nextId
  let sp := spawnDefaults kind
  let vx := at_global.x - area_origin.x - sp.1.x * 0.5
  let vy := at_global.y - area_origin.y - sp.1.y * 0.5
  let pos := snap_pos_with_grid ⟨vx, vy⟩ s.gridSize
  let neww : Widget := ⟨⟨id⟩, kind, pos, sp.1, u64_as_i32 id, area, sp.2⟩
  { s with
    project := { s.project with widgets := s.project.widgets ++ [neww] },
    nextId := s.nextId + 1,
    selected := some ⟨id⟩ }

/-- `Self::selected_mut` from src/app.rs lines 293-296: the currently
selected widget, when the selection refers to an existing id. -/
def selectedWidget (s : AppState) : Option Widget :=
  match s.selected with
  | none => none
  | some sel => s.project.widgets.find? (fun w => w.id.val == sel.val)

/-- The Duplicate button of `inspector_ui` (src/app.rs lines 1026-1057):
clone the selected widget under the current fresh-id counter, bump z,
offset the position, push it, select it, increment the counter. -/
def duplicate_selected (s : AppState) : AppState :=
  match selectedWidget s with
  | none => s
  | some w =>
    let new_w : Widget :=
      { w with id := ⟨s.nextId⟩, z := w.z + 1,
               pos := ⟨w.pos.x + 26, w.pos.y + 26⟩ }
    { s with
      selected := some new_w.id,
      project := { s.project with widgets := s.project.widgets ++ [new_w] },
      nextId := s.nextId + 1 }

/-- The Delete button of `inspector_ui` (src/app.rs lines 1042-1046):
remove every widget with the selected id and clear the selection; the
fresh-id counter is left unchanged. -/
def delete_selected (s : AppState) : AppState :=
  match selectedWidget s with
  | none => s
  | some w =>
    let ws := s.project.widgets.filter (fun v => !(v.id.val == w.id.val))
    { s with
      project := { s.project with widgets := ws },
      selected := none }

/-- The widget ids of the current document. -/
def idsOf (s : AppState) : List Nat :=
  s.project.widgets.map (fun w => w.id.val)

/-- The fresh-id invariant: ids are pairwise distinct and all below the
counter. -/
def StateInv (s : AppState) : Prop :=
  (idsOf s).Nodup ∧ ∀ x ∈ idsOf s, x < s.nextId

instance (s : AppState) : Decidable (StateInv s) := by
  unfold StateInv
  infer_instance

/-- The editing operations that mutate the widget list without replacing
the document wholesale. -/
inductive EditOp where
  | spawn (kind : WidgetKind) (at_global : Pos2) (area : DockArea)
      (area_origin : Pos2)
  | duplicate
  | delete

/-- Apply one editing operation. -/
def applyOp (s : AppState) : EditOp → AppState
  | .spawn k g a o => spawn_widget s k g a o
  | .duplicate => duplicate_selected s
  | .delete => delete_selected s

/-- Apply a sequence of editing operations. -/
def runOps (s : AppState) : List EditOp → AppState
  | [] => s
  | op :: rest => runOps (applyOp s op) rest

lemma push_ids_nodup {l : List Nat} {a : Nat} (h : l.Nodup) (ha : a ∉ l) :
    (l ++ [a]).Nodup := by
  rw [List.nodup_append]
  refine ⟨h, List.nodup_singleton a, ?_⟩
  intro x hx hx2
  simp only [List.mem_singleton] at hx2
  subst hx2
  exact ha hx

lemma invStep_push {ids : List Nat} {n : Nat} (h1 : ids.Nodup)
    (h2 : ∀ x ∈ ids, x < n) :
    (ids ++ [n]).Nodup ∧ (∀ x ∈ ids ++ [n], x < n + 1) ∧
    ∀ d, d < n → d ∉ ids → d ∉ ids ++ [n] := by
  refine ⟨?_, ?_, ?_⟩
  · refine push_ids_nodup h1 ?_
    intro hm
    have := h2 n hm
    omega
  · intro x hx
    rcases List.mem_append.mp hx with hx | hx
    · have := h2 x hx
      omega
    · simp only [List.mem_singleton] at hx
      omega
  · intro d hd hdm hmem
    rcases List.mem_append.mp hmem with hx | hx
    · exact hdm hx
    · simp only [List.mem_singleton] at hx
      omega

lemma spawn_ids (s : AppState) (k : WidgetKind) (g : Pos2) (a : DockArea)
    (o : Pos2) :
    idsOf (spawn_widget s k g a o) = idsOf s ++ [s.nextId] := by
  simp [spawn_widget, idsOf]

lemma spawn_nextId (s : AppState) (k : WidgetKind) (g : Pos2) (a : DockArea)
    (o : Pos2) :
    (spawn_widget s k g a o).nextId = s.nextId + 1 := rfl

lemma duplicate_cases (s : AppState) :
    duplicate_selected s = s ∨
    (idsOf (duplicate_selected s) = idsOf s ++ [s.nextId] ∧
     (duplicate_selected s).nextId = s.nextId + 1) := by
  unfold duplicate_selected
  cases hf : selectedWidget s with
  | none => exact Or.inl rfl
  | some w =>
    refine Or.inr ⟨?_, rfl⟩
    simp [idsOf]

lemma delete_nextId (s : AppState) :
    (delete_selected s).nextId = s.nextId := by
  unfold delete_selected
  cases hf : selectedWidget s with
  | none => rfl
  | some w => rfl

lemma delete_ids_sublist (s : AppState) :
    List.Sublist (idsOf (delete_selected s)) (idsOf s) := by
  unfold delete_selected
  cases hf : selectedWidget s with
  | none => exact List.Sublist.refl _
  | some w => exact (List.filter_sublist _).map _

lemma spawn_preserves (s : AppState) (k : WidgetKind) (g : Pos2)
    (a : DockArea) (o : Pos2) (h : StateInv s) :
    StateInv (spawn_widget s k g a o) ∧
    (spawn_widget s k g a o).nextId = s.nextId + 1 ∧
    s.nextId ∈ idsOf (spawn_widget s k g a o) ∧
    ∀ d, d < s.nextId → d ∉ idsOf s →
      d ∉ idsOf (spawn_widget s k g a o) := by
  obtain ⟨p1, p2, p3⟩ := invStep_push h.1 h.2
  refine ⟨⟨?_, ?_⟩, spawn_nextId s k g a o, ?_, ?_⟩
  · rw [spawn_ids]
    exact p1
  · intro x hx
    rw [spawn_ids] at hx
    rw [spawn_nextId]
    exact p2 x hx
  · rw [spawn_ids]
    simp
  · intro d hd hdm
    rw [spawn_ids]
    exact p3 d hd hdm

lemma duplicate_preserves (s : AppState) (h : StateInv s) :
    StateInv (duplicate_selected s) ∧
    s.nextId ≤ (duplicate_selected s).nextId ∧
    ∀ d, d < s.nextId → d ∉ idsOf s →
      d ∉ idsOf (duplicate_selected s) := by
  rcases duplicate_cases s with heq | ⟨hids, hnext⟩
  · rw [heq]
    exact ⟨h, Nat.le_refl _, fun d _ hdm => hdm⟩
  · obtain ⟨p1, p2, p3⟩ := invStep_push h.1 h.2
    refine ⟨⟨?_, ?_⟩, ?_, ?_⟩
    · rw [hids]
      exact p1
    · intro x hx
      rw [hids] at hx
      rw [hnext]
      exact p2 x hx
    · rw [hnext]
      omega
    · intro d hd hdm
      rw [hids]
      exact p3 d hd hdm

lemma delete_preserves (s : AppState) (h : StateInv s) :
    StateInv (delete_selected s) ∧
    (delete_selected s).nextId = s.nextId ∧
    ∀ d, d ∉ idsOf s → d ∉ idsOf (delete_selected s) := by
  refine ⟨⟨h.1.sublist (delete_ids_sublist s), ?_⟩, delete_nextId s, ?_⟩
  · intro x hx
    rw [delete_nextId]
    exact h.2 x ((delete_ids_sublist s).subset hx)
  · intro d hdm hmem
    exact hdm ((delete_ids_sublist s).subset hmem)

lemma applyOp_preserves (s : AppState) (op : EditOp) (h : StateInv s) :
    StateInv (applyOp s op) ∧ s.nextId ≤ (applyOp s op).nextId ∧
    ∀ d, d < s.nextId → d ∉ idsOf s → d ∉ idsOf (applyOp s op) := by
  cases op with
  | spawn k g a o =>
    obtain ⟨h1, h2, _, h4⟩ := spawn_preserves s k g a o h
    refine ⟨h1, ?_, h4⟩
    show s.nextId ≤ (spawn_widget s k g a o).nextId
    rw [h2]
    omega
  | duplicate => exact duplicate_preserves s h
  | delete =>
    obtain ⟨h1, h2, h3⟩ := delete_preserves s h
    refine ⟨h1, ?_, fun d _ hdm => h3 d hdm⟩
    show s.nextId ≤ (delete_selected s).nextId
    rw [h2]

lemma runOps_preserves (ops : List EditOp) (s : AppState) (h : StateInv s) :
    StateInv (runOps s ops) ∧ s.nextId ≤ (runOps s ops).nextId ∧
    ∀ d, d < s.nextId → d ∉ idsOf s → d ∉ idsOf (runOps s ops) := by
  induction ops generalizing s with
  | nil => exact ⟨h, Nat.le_refl _, fun d _ hdm => hdm⟩
  | cons op rest ih =>
    obtain ⟨h1, h2, h3⟩ := applyOp_preserves s op h
    obtain ⟨g1, g2, g3⟩ := ih (applyOp s op) h1
    refine ⟨g1, Nat.le_trans h2 g2, ?_⟩
    intro d hd hdm
    exact g3 d (Nat.lt_of_lt_of_le hd h2) (h3 d hd hdm)

lemma import_preserves (s : AppState) (j : Json) (p : Project)
    (hdec : decodeProject j = some p)
    (hdup : (p.widgets.map (fun w => w.id.val)).Nodup) :
    StateInv (importProject s j) := by
  unfold importProject
  rw [hdec]
  constructor
  · simpa [idsOf] using hdup
  · intro x hx
    have hx2 : x ∈ p.widgets.map (fun w => w.id.val) := by
      simpa [idsOf] using hx
    show x < nextIdAfterImport p
    unfold nextIdAfterImport
    cases hm : (p.widgets.map (fun w => w.id.val)).max? with
    | none =>
      rw [List.max?_eq_none_iff] at hm
      rw [hm] at hx2
      simp at hx2
    | some m =>
      have hle := (List.max?_eq_some_iff'.mp hm).2 x hx2
      show x < m + 1
      omega

/-- A Label widget with an explicitly chosen id, used to build a document
whose ids collide. -/
def labelWidgetWithId (n : Nat) : Widget :=
  ⟨⟨n⟩, .Label, ⟨0, 0⟩, ⟨140, 24⟩, 1, .Free, WidgetProps.default⟩

/-- A decodable interchange document containing two widgets with the same
id 1. -/
def projectDupIds : Project :=
  ⟨[labelWidgetWithId 1, labelWidgetWithId 1], ⟨1200, 800⟩, 80, 80, 220, 260⟩

/-- Claim C9 (counterexample): a successful import does NOT always
preserve id uniqueness — importing a decodable document whose own widget
ids collide (two widgets with id 1) into the pristine default state yields
a document with duplicate ids. -/
theorem import_duplicate_ids_breaks_uniqueness :
    StateInv AppState.default ∧
    ¬ (idsOf (importProject AppState.default
        (encodeProject projectDupIds))).Nodup := by
  refine ⟨by decide, ?_⟩
  have h : decodeProject (encodeProject projectDupIds) =
      some projectDupIds := decodeProject_encodeProject projectDupIds
  unfold importProject
  rw [h]
  decide

/-- Claim C9 as amended: spawn and duplicate assign the current fresh-id
counter and increment it, delete leaves the counter unchanged, and each of
these preserves id uniqueness; a successful import resets the counter
above every imported id and preserves uniqueness provided the imported
document's own ids are distinct; and within a document (spawn, duplicate
and delete only), an id absent from the document and below the counter —
in particular a deleted id — is never assigned again. -/
theorem id_uniqueness_preserved :
    (∀ s k g a o, StateInv s → StateInv (spawn_widget s k g a o) ∧
      (spawn_widget s k g a o).nextId = s.nextId + 1 ∧
      s.nextId ∈ idsOf (spawn_widget s k g a o)) ∧
    (∀ s, StateInv s → StateInv (duplicate_selected s)) ∧
    (∀ s, StateInv s → StateInv (delete_selected s) ∧
      (delete_selected s).nextId = s.nextId) ∧
    (∀ s j p, decodeProject j = some p →
      (p.widgets.map (fun w => w.id.val)).Nodup →
      StateInv (importProject s j)) ∧
    (∀ s ops d, StateInv s → d < s.nextId → d ∉ idsOf s →
      d ∉ idsOf (runOps s ops)) := by
  refine ⟨?_, ?_, ?_, ?_, ?_⟩
  · intro s k g a o h
    obtain ⟨h1, h2, h3, _⟩ := spawn_preserves s k g a o h
    exact ⟨h1, h2, h3⟩
  · intro s h
    exact (duplicate_preserves s h).1
  · intro s h
    obtain ⟨h1, h2, _⟩ := delete_preserves s h
    exact ⟨h1, h2⟩
  · intro s j p hdec hdup
    exact import_preserves s j p hdec hdup
  · intro s ops d h hd hdm
    exact (runOps_preserves ops s h).2.2 d hd hdm

/-- Concrete instantiation of the amended C9 theorem, every hypothesis
discharged. -/
theorem id_uniqueness_preserved_witness :
    (StateInv (spawn_widget AppState.default .Label ⟨0, 0⟩ .Free ⟨0, 0⟩) ∧
      (spawn_widget AppState.default .Label ⟨0, 0⟩ .Free ⟨0, 0⟩).nextId =
        AppState.default.nextId + 1 ∧
      AppState.default.nextId ∈
        idsOf (spawn_widget AppState.default .Label ⟨0, 0⟩ .Free ⟨0, 0⟩)) ∧
    StateInv (duplicate_selected AppState.default) ∧
    (StateInv (delete_selected AppState.default) ∧
      (delete_selected AppState.default).nextId =
        AppState.default.nextId) ∧
    StateInv (importProject AppState.default
      (encodeProject Project.default)) ∧
    (0 : Nat) ∉ idsOf (runOps AppState.default []) :=
  ⟨id_uniqueness_preserved.1 AppState.default .Label ⟨0, 0⟩ .Free ⟨0, 0⟩
     (by decide),
   id_uniqueness_preserved.2.1 AppState.default (by decide),
   id_uniqueness_preserved.2.2.1 AppState.default (by decide),
   id_uniqueness_preserved.2.2.2.1 AppState.default
     (encodeProject Project.default) Project.default
     (decodeProject_encodeProject Project.default) (by decide),
   id_uniqueness_preserved.2.2.2.2 AppState.default [] 0 (by decide)
     (by decide) (by decide)⟩

end EguiRad
